import Mathlib

/-!
Shallow embedding of the client-side realtime session/connection layer of the
CIE_RAG frontend: the transport connection class in
src/frontend/src/services/websocketService.ts and the session coordinator
(ChatAPI) in src/frontend/src/services/api.ts, together with theorems settling
the specification's claims about that layer.
-/

/-- JavaScript truthiness of an optional string field: an absent field and the
empty string are falsy, every other string is truthy. -/
def truthy : Option String → Bool
  | none => false
  | some s => !(s == "")

/-- Wire frame as declared by interface WebSocketMessage: all four fields are
optional strings. -/
structure WebSocketMessage where
  session_id : Option String
  query : Option String
  response : Option String
  error : Option String
deriving DecidableEq

/-- Lifecycle of the underlying browser socket object, as far as readyState is
observed by the service. -/
inductive ReadyState
  | connecting
  | opened
  | closed
deriving DecidableEq

/-- The mutable fields of class WebSocketService.  The ws field is the current
socket (absent when null); handlers is the list of reply closures registered by
sendMessage, each identified by the pending request it settles, in registration
order. -/
structure WebSocketService where
  user_id : String
  ws : Option ReadyState
  reconnectAttempts : Nat
  sessionId : Option String
  handlers : List Nat
deriving DecidableEq

/-- Field default maxReconnectAttempts = 5. -/
def maxReconnectAttempts : Nat := 5

/-- Field default reconnectDelay = 1000 milliseconds. -/
def reconnectDelay : Nat := 1000

/-- Constructor new WebSocketService(user_id): no socket, zero reconnect
attempts, no session identifier, no handlers. -/
def WebSocketService.new (uid : String) : WebSocketService :=
  ⟨uid, none, 0, none, []⟩

/-- The synchronous effect of connect(): when the socket is already OPEN the
promise resolves at once and nothing is created; otherwise a fresh socket is
constructed (readyState CONNECTING).  The Bool is true exactly when a new
underlying transport was created. -/
def WebSocketService.connectStart (s : WebSocketService) : WebSocketService × Bool :=
  if s.ws = some ReadyState.opened then (s, false)
  else ({ s with ws := some ReadyState.connecting }, true)

/-- The onopen handler: the socket is now OPEN and the reconnect counter is
reset to zero. -/
def WebSocketService.onopen (s : WebSocketService) : WebSocketService :=
  { s with ws := some ReadyState.opened, reconnectAttempts := 0 }

/-- What one reply closure registered by sendMessage does with one inbound
frame: a truthy response deregisters the closure and resolves the pending
promise with that text; otherwise a truthy error deregisters it and rejects
with that message; otherwise the frame is ignored and the closure stays
registered. -/
inductive HandlerOutcome
  | resolve (text : String)
  | reject (msg : String)
  | keep
deriving DecidableEq

/-- The body of the messageHandler closure built inside sendMessage, applied to
one inbound frame. -/
def messageHandler (m : WebSocketMessage) : HandlerOutcome :=
  if truthy m.response then HandlerOutcome.resolve (m.response.getD "")
  else if truthy m.error then HandlerOutcome.reject (m.error.getD "")
  else HandlerOutcome.keep

/-- The onmessage handler: a truthy session_id field overwrites the tracked
sessionId; then every registered handler is invoked with the frame, and a
handler that resolved or rejected removes itself (all registered handlers are
sendMessage closures, which behave identically on a given frame, so either all
stay or all are removed). -/
def WebSocketService.deliver (s : WebSocketService) (m : WebSocketMessage) :
    WebSocketService :=
  let s1 := if truthy m.session_id then { s with sessionId := m.session_id } else s
  match messageHandler m with
  | HandlerOutcome.keep => s1
  | _ => { s1 with handlers := [] }

/-- attemptReconnect(): when the attempt counter is below the ceiling, schedule
a reconnect timer after reconnectDelay * 2 ^ reconnectAttempts milliseconds
(the counter is incremented later, inside the timer callback); otherwise do
nothing.  Returns the scheduled delay, if any; the service state is unchanged
at scheduling time. -/
def WebSocketService.attemptReconnect (s : WebSocketService) : Option Nat :=
  if s.reconnectAttempts < maxReconnectAttempts then
    some (reconnectDelay * 2 ^ s.reconnectAttempts)
  else none

/-- The reconnect timer callback: increment the attempt counter, then call
connect(), which constructs a new socket since the old one is not OPEN. -/
def WebSocketService.reconnectFire (s : WebSocketService) : WebSocketService :=
  (WebSocketService.connectStart
    { s with reconnectAttempts := s.reconnectAttempts + 1 }).1

/-- The onclose handler: it logs and calls attemptReconnect, nothing else; in
particular the registered handlers and every other field are untouched.
Returns the service state after the handler together with the delay
attemptReconnect scheduled, if any. -/
def WebSocketService.onclose (s : WebSocketService) : WebSocketService × Option Nat :=
  (s, s.attemptReconnect)

/-- Whether the synchronous part of sendMessage(query) rejected at once or
registered its reply handler and transmitted the query frame. -/
inductive SendStart
  | notConnected
  | transmitted
deriving DecidableEq

/-- The synchronous part of sendMessage(query): when the socket is not OPEN the
promise is rejected at once with a not-connected error; otherwise the reply
handler is appended to the handler list and the query frame is sent.  There is
no check that another request is already in flight. -/
def WebSocketService.sendMessageStart (s : WebSocketService) (reqId : Nat) :
    WebSocketService × SendStart :=
  if s.ws = some ReadyState.opened then
    ({ s with handlers := s.handlers ++ [reqId] }, SendStart.transmitted)
  else (s, SendStart.notConnected)

/-- getSessionId(): the tracked session identifier, possibly absent. -/
def WebSocketService.getSessionId (s : WebSocketService) : Option String :=
  s.sessionId

/-- disconnect(): when a socket exists, close it and null the ws field.  The
close event still fires on the old socket object, whose onclose handler is the
service's onclose above. -/
def WebSocketService.disconnect (s : WebSocketService) : WebSocketService :=
  match s.ws with
  | some _ => { s with ws := none }
  | none => s

/-- The state of the ChatAPI singleton: at most one WebSocketService. -/
structure ChatAPI where
  webSocketService : Option WebSocketService
deriving DecidableEq

/-- getSessionInfo(): the current service's tracked session identifier, or
absent when there is no service. -/
def ChatAPI.getSessionInfo (c : ChatAPI) : Option String :=
  match c.webSocketService with
  | some s => s.getSessionId
  | none => none

/-- The coordinator's connection initializer (source name initializeWebSocket):
when no service exists, or the current one's getSessionId() is strictly null, a
fresh service is constructed and connected, replacing (without closing) the old
one; otherwise nothing happens.  The Bool is true exactly when a new underlying
transport was created. -/
def ChatAPI.initWebSocket (c : ChatAPI) (userId : String) : ChatAPI × Bool :=
  match c.webSocketService with
  | none =>
      let p := (WebSocketService.new userId).connectStart
      (⟨some p.1⟩, p.2)
  | some s =>
      if s.getSessionId = none then
        let p := (WebSocketService.new userId).connectStart
        (⟨some p.1⟩, p.2)
      else (c, false)

/-- Constant maxWaitTime = 5000 milliseconds in createNewSession. -/
def maxWaitTime : Nat := 5000

/-- The 100 millisecond sleep between polls in createNewSession. -/
def pollInterval : Nat := 100

/-- The wait loop of createNewSession: while getSessionId() is falsy and fewer
than maxWaitTime milliseconds have elapsed, sleep pollInterval and recheck.
The function sessAt gives the fresh service's tracked sessionId as a function
of elapsed milliseconds (each iteration takes exactly one poll interval); fuel
bounds the number of iterations, and 51 suffices from elapsed 0.  Returns the
sessionId read right after the loop exits. -/
def waitLoop (sessAt : Nat → Option String) : Nat → Nat → Option String
  | 0, elapsed => sessAt elapsed
  | fuel + 1, elapsed =>
    if truthy (sessAt elapsed) ∨ maxWaitTime ≤ elapsed then sessAt elapsed
    else waitLoop sessAt fuel (elapsed + pollInterval)

/-- How a createNewSession call resolved: with the streaming session id, with
the id of the HTTP fallback response, or by throwing because neither path
yielded an id. -/
inductive CreateSessionResult
  | fromWebSocket (sid : String)
  | fromHttp (sid : String)
  | noSession
deriving DecidableEq

/-- createNewSession(userId): a fresh service replaces the current one and is
connected; the wait loop polls for a streaming session id; a truthy id is
returned directly; otherwise the HTTP fallback endpoint is called and its
session_id field, when truthy, is returned; otherwise an error is thrown.  The
second component is the fresh service's tracked sessionId at the moment the
call returns, which is exactly what getSessionInfo() reads next, absent
further inbound frames. -/
def createNewSession (sessAt : Nat → Option String) (httpSessionId : Option String) :
    CreateSessionResult × Option String :=
  if truthy (waitLoop sessAt 51 0) then
    (CreateSessionResult.fromWebSocket ((waitLoop sessAt 51 0).getD ""),
      waitLoop sessAt 51 0)
  else if truthy httpSessionId then
    (CreateSessionResult.fromHttp (httpSessionId.getD ""), waitLoop sessAt 51 0)
  else (CreateSessionResult.noSession, waitLoop sessAt 51 0)

/-- How a coordinator-level sendMessage call resolved. -/
inductive ApiSendResult
  | ok (m : WebSocketMessage)
  | err (msg : String)
  | pending
deriving DecidableEq

/-- The round trip of ChatAPI.sendMessage on an existing service: the
synchronous start of the service's sendMessage, then the first reply frame is
given to the registered handler; a resolution is wrapped as a response-only
WebSocketMessage, a rejection propagates its message. -/
def apiSendMessage (s : WebSocketService) (reqId : Nat) (reply : WebSocketMessage) :
    ApiSendResult :=
  match (s.sendMessageStart reqId).2 with
  | SendStart.notConnected => ApiSendResult.err "WebSocket not connected"
  | SendStart.transmitted =>
      match messageHandler reply with
      | HandlerOutcome.resolve r => ApiSendResult.ok ⟨none, none, some r, none⟩
      | HandlerOutcome.reject e => ApiSendResult.err e
      | HandlerOutcome.keep => ApiSendResult.pending

/-- One failed reconnect cycle starting from a close event: attemptReconnect
may schedule a delay; the timer fires, increments the counter and constructs a
new socket; that connection attempt fails and the socket closes again. -/
def reconnectCycle (s : WebSocketService) : WebSocketService × Option Nat :=
  match s.attemptReconnect with
  | none => (s, none)
  | some d =>
      let s1 := s.reconnectFire
      ({ s1 with ws := some ReadyState.closed }, some d)

/-- Iterated failing reconnect cycles: the list of scheduled delays in order,
and the final service state, stopping when attemptReconnect declines to
schedule. -/
def reconnectTrace : Nat → WebSocketService → List Nat × WebSocketService
  | 0, s => ([], s)
  | n + 1, s =>
      match reconnectCycle s with
      | (s1, none) => ([], s1)
      | (s1, some d) =>
          let r := reconnectTrace n s1
          (d :: r.1, r.2)

/-- A service whose socket has just closed for the first time. -/
def closedService : WebSocketService :=
  ⟨"u1", some ReadyState.closed, 0, none, []⟩

/-- An open service with one sendMessage reply handler registered, i.e. one
request in flight. -/
def openWithPending : WebSocketService :=
  ⟨"u1", some ReadyState.opened, 0, some "s1", [0]⟩

/-- An open service with a known session identifier and no pending request. -/
def openService : WebSocketService :=
  ⟨"u1", some ReadyState.opened, 0, some "s1", []⟩

/-- An open service that has not yet received any session identifier. -/
def openNoSession : WebSocketService :=
  ⟨"u1", some ReadyState.opened, 0, none, []⟩

/-- A truthy optional string is exactly a non-empty one. -/
theorem truthy_iff (o : Option String) :
    truthy o = true ↔ ∃ s, o = some s ∧ s ≠ "" := by
  cases o with
  | none => simp [truthy]
  | some s => simp [truthy]

/-- The wait loop inspects the sessionId only at poll instants up to the
deadline: two arrival functions agreeing on every multiple of the poll
interval up to maxWaitTime produce the same result. -/
theorem waitLoop_congr (f g : Nat → Option String)
    (h : ∀ t, t ≤ maxWaitTime → t % pollInterval = 0 → f t = g t) :
    ∀ fuel elapsed, elapsed % pollInterval = 0 → elapsed ≤ maxWaitTime →
      waitLoop f fuel elapsed = waitLoop g fuel elapsed := by
  intro fuel
  induction fuel with
  | zero =>
      intro elapsed h1 h2
      simp only [waitLoop]
      exact h elapsed h2 h1
  | succ n ih =>
      intro elapsed h1 h2
      simp only [waitLoop]
      rw [h elapsed h2 h1]
      by_cases hc : truthy (g elapsed) = true ∨ maxWaitTime ≤ elapsed
      · rw [if_pos hc, if_pos hc]
      · rw [if_neg hc, if_neg hc]
        have hlt : elapsed < maxWaitTime := by
          rcases not_or.mp hc with ⟨_, h5⟩
          omega
        have h100 : pollInterval = 100 := rfl
        have h5000 : maxWaitTime = 5000 := rfl
        rw [h100] at h1
        rw [h5000] at h2 hlt
        exact ih (elapsed + pollInterval)
          (by rw [h100]; omega) (by rw [h100, h5000]; omega)

/-- C2: if no session identifier arrives over the streaming handshake within
the bounded deadline (5000 ms, polled at 100 ms instants — the wait loop
inspects nothing else), createNewSession resolves to the identifier the HTTP
fallback returns, and it fails with no-session only when neither the streaming
path nor the HTTP fallback yields a truthy identifier. -/
theorem createNewSession_fallback_spec :
    (∀ f g : Nat → Option String,
        (∀ t, t ≤ maxWaitTime → t % pollInterval = 0 → f t = g t) →
        waitLoop f 51 0 = waitLoop g 51 0) ∧
    (∀ (f : Nat → Option String) (http : Option String),
        truthy (waitLoop f 51 0) = false → truthy http = true →
        (createNewSession f http).1 = CreateSessionResult.fromHttp (http.getD "")) ∧
    (∀ (f : Nat → Option String) (http : Option String),
        (createNewSession f http).1 = CreateSessionResult.noSession ↔
          truthy (waitLoop f 51 0) = false ∧ truthy http = false) := by
  refine ⟨?_, ?_, ?_⟩
  · intro f g h
    exact waitLoop_congr f g h 51 0 (by decide) (by decide)
  · intro f http h1 h2
    simp [createNewSession, h1, h2]
  · intro f http
    by_cases h1 : truthy (waitLoop f 51 0) = true
    · simp [createNewSession, h1]
    · by_cases h2 : truthy http = true
      · simp [createNewSession, eq_false_of_ne_true h1, h2]
      · simp [createNewSession, eq_false_of_ne_true h1, eq_false_of_ne_true h2]

/-- Witness for C2: the handshake never delivers a session id, the HTTP mock
returns sid-123, and createNewSession resolves to exactly that identifier. -/
theorem createNewSession_fallback_spec_witness :
    (createNewSession (fun _ => none) (some "sid-123")).1
      = CreateSessionResult.fromHttp ((some "sid-123").getD "") :=
  createNewSession_fallback_spec.2.1 (fun _ => none) (some "sid-123")
    (by decide) (by decide)

/-- Counterexample for C1: when the session identifier is obtained via the HTTP
fallback, createNewSession returns sid-123 but the service's tracked sessionId
— exactly what getSessionInfo reads — is still absent, so getSessionInfo does
not report the returned identifier. -/
theorem createNewSession_http_fallback_not_reported :
    (createNewSession (fun _ => none) (some "sid-123")).1
        = CreateSessionResult.fromHttp "sid-123" ∧
    (createNewSession (fun _ => none) (some "sid-123")).2 = none ∧
    ChatAPI.getSessionInfo
        ⟨some { WebSocketService.new "u1" with
                  sessionId := (createNewSession (fun _ => none) (some "sid-123")).2 }⟩
      ≠ some "sid-123" := by
  refine ⟨by decide, by decide, by decide⟩

/-- C1 as amended: the identifier returned by a successful createNewSession is
always non-empty; when it came over the streaming handshake it equals the
tracked sessionId that getSessionInfo reports next; when it came from the HTTP
fallback it is not stored, and the tracked sessionId remains falsy (so
getSessionInfo does not report it). -/
theorem createNewSession_reported_session (f : Nat → Option String)
    (http : Option String) :
    (∀ r, (createNewSession f http).1 = CreateSessionResult.fromWebSocket r →
        r ≠ "" ∧ (createNewSession f http).2 = some r) ∧
    (∀ h, (createNewSession f http).1 = CreateSessionResult.fromHttp h →
        h ≠ "" ∧ truthy (createNewSession f http).2 = false) := by
  constructor
  · intro r hr
    by_cases h1 : truthy (waitLoop f 51 0) = true
    · rcases (truthy_iff _).mp h1 with ⟨s, hs, hne⟩
      have hcn : createNewSession f http =
          (CreateSessionResult.fromWebSocket ((waitLoop f 51 0).getD ""),
            waitLoop f 51 0) := by
        simp [createNewSession, h1]
      rw [hcn] at hr
      simp only [CreateSessionResult.fromWebSocket.injEq] at hr
      rw [hs] at hr
      simp only [Option.getD_some] at hr
      subst hr
      refine ⟨hne, ?_⟩
      rw [hcn]
      exact hs
    · by_cases h2 : truthy http = true
      · simp [createNewSession, eq_false_of_ne_true h1, h2] at hr
      · simp [createNewSession, eq_false_of_ne_true h1,
          eq_false_of_ne_true h2] at hr
  · intro v hv
    by_cases h1 : truthy (waitLoop f 51 0) = true
    · simp [createNewSession, h1] at hv
    · by_cases h2 : truthy http = true
      · rcases (truthy_iff _).mp h2 with ⟨s, hs, hne⟩
        have hcn : createNewSession f http =
            (CreateSessionResult.fromHttp (http.getD ""), waitLoop f 51 0) := by
          simp [createNewSession, eq_false_of_ne_true h1, h2]
        rw [hcn] at hv
        simp only [CreateSessionResult.fromHttp.injEq] at hv
        rw [hs] at hv
        simp only [Option.getD_some] at hv
        subst hv
        refine ⟨hne, ?_⟩
        rw [hcn]
        exact eq_false_of_ne_true h1
      · simp [createNewSession, eq_false_of_ne_true h1,
          eq_false_of_ne_true h2] at hv

/-- Witness for the amended C1: a handshake that delivers session id a at once
yields a createNewSession result of a, non-empty and equal to the tracked
sessionId that getSessionInfo reads. -/
theorem createNewSession_reported_session_witness :
    "a" ≠ "" ∧
      (createNewSession (fun _ => some "a") none).2 = some "a" :=
  (createNewSession_reported_session (fun _ => some "a") none).1 "a" (by decide)

/-- C3: on an open connection, sendMessage resolves to the text hi when the
reply frame carries response hi, and rejects with message boom when the reply
frame carries error boom; the coordinator wraps the resolved text as a
response-only frame and propagates the rejection. -/
theorem sendMessage_response_and_error (s : WebSocketService) (reqId : Nat)
    (hopen : s.ws = some ReadyState.opened) :
    apiSendMessage s reqId ⟨none, none, some "hi", none⟩
        = ApiSendResult.ok ⟨none, none, some "hi", none⟩ ∧
    apiSendMessage s reqId ⟨none, none, none, some "boom"⟩
        = ApiSendResult.err "boom" := by
  constructor <;>
    simp [apiSendMessage, WebSocketService.sendMessageStart, hopen,
      messageHandler, truthy]

/-- Witness for C3 at a concrete open service. -/
theorem sendMessage_response_and_error_witness :
    apiSendMessage ⟨"u1", some ReadyState.opened, 0, some "s1", []⟩ 0
        ⟨none, none, some "hi", none⟩
      = ApiSendResult.ok ⟨none, none, some "hi", none⟩ ∧
    apiSendMessage ⟨"u1", some ReadyState.opened, 0, some "s1", []⟩ 0
        ⟨none, none, none, some "boom"⟩
      = ApiSendResult.err "boom" :=
  sendMessage_response_and_error
    ⟨"u1", some ReadyState.opened, 0, some "s1", []⟩ 0 rfl

/-- C4 is violated by the code: the close handler only logs and calls
attemptReconnect, leaving the service state — in particular every registered
reply handler and thus every pending promise — completely untouched; at the
concrete failing input, a service with one request in flight still has that
handler registered after the close event, so the pending promise is never
rejected. -/
theorem onclose_leaves_pending_handler :
    (∀ s : WebSocketService, (WebSocketService.onclose s).1 = s) ∧
    (WebSocketService.onclose openWithPending).1.handlers = [0] := by
  exact ⟨fun s => rfl, rfl⟩

/-- C5: the reconnect delay scheduled while the counter reads n is exactly
reconnectDelay * 2 ^ n; no delay is scheduled at or above the ceiling; the
timer callback increments the counter by one; and along a trace of repeatedly
failing reconnects starting from a first unsolicited close, exactly five
attempts are scheduled with delays 1000, 2000, 4000, 8000 and 16000 ms, after
which the counter reads the ceiling and no further attempt is scheduled —
while a freshly constructed service starts again from a zero counter. -/
theorem reconnect_backoff_spec :
    (∀ s : WebSocketService, s.reconnectAttempts < maxReconnectAttempts →
        s.attemptReconnect = some (reconnectDelay * 2 ^ s.reconnectAttempts)) ∧
    (∀ s : WebSocketService, maxReconnectAttempts ≤ s.reconnectAttempts →
        s.attemptReconnect = none) ∧
    (∀ s : WebSocketService,
        (s.reconnectFire).reconnectAttempts = s.reconnectAttempts + 1) ∧
    (reconnectTrace 10 closedService).1 = [1000, 2000, 4000, 8000, 16000] ∧
    (reconnectTrace 10 closedService).2.reconnectAttempts = maxReconnectAttempts ∧
    (reconnectTrace 10 closedService).2.attemptReconnect = none ∧
    (WebSocketService.new "u1").reconnectAttempts = 0 := by
  refine ⟨?_, ?_, ?_, by decide, by decide, by decide, rfl⟩
  · intro s h
    simp [WebSocketService.attemptReconnect, h]
  · intro s h
    simp [WebSocketService.attemptReconnect, Nat.not_lt.mpr h]
  · intro s
    unfold WebSocketService.reconnectFire WebSocketService.connectStart
    split <;> rfl

/-- Witness for C5: a service whose counter reads 3 gets a scheduled delay of
reconnectDelay * 2 ^ 3 = 8000 ms. -/
theorem reconnect_backoff_spec_witness :
    (⟨"u1", some ReadyState.closed, 3, none, []⟩
        : WebSocketService).attemptReconnect
      = some (reconnectDelay * 2 ^ 3) :=
  reconnect_backoff_spec.1 ⟨"u1", some ReadyState.closed, 3, none, []⟩ (by decide)

/-- C6 is violated by the code: the close handler attached to the socket does
not distinguish an explicit disconnect from an unsolicited close, so after
disconnect() on an open service with a zero attempt counter, the ensuing close
event still schedules a reconnect after 1000 ms, and the timer callback then
constructs a brand-new transport for the supposedly discarded instance. -/
theorem disconnect_close_schedules_reconnect :
    (WebSocketService.onclose (WebSocketService.disconnect openService)).2
        = some 1000 ∧
    ((WebSocketService.onclose
        (WebSocketService.disconnect openService)).1.reconnectFire).ws
      = some ReadyState.connecting := by
  exact ⟨rfl, rfl⟩

/-- The tracked sessionId after one inbound frame: a truthy session_id field
overwrites it, anything else leaves it alone. -/
theorem deliver_sessionId (s : WebSocketService) (m : WebSocketMessage) :
    (s.deliver m).sessionId =
      if truthy m.session_id then m.session_id else s.sessionId := by
  unfold WebSocketService.deliver
  split <;> split <;> rfl

/-- Counterexample for C7: two frames carrying the non-empty session
identifiers a then b leave the tracked identifier at b, so the first non-empty
value does not win and the identifier is mutated after being set. -/
theorem sessionId_overwritten_by_later_frame :
    ((WebSocketService.new "u1").deliver
        ⟨some "a", none, none, none⟩).sessionId = some "a" ∧
    (((WebSocketService.new "u1").deliver ⟨some "a", none, none, none⟩).deliver
        ⟨some "b", none, none, none⟩).sessionId = some "b" ∧
    (((WebSocketService.new "u1").deliver ⟨some "a", none, none, none⟩).deliver
          ⟨some "b", none, none, none⟩).sessionId
      ≠ ((WebSocketService.new "u1").deliver
          ⟨some "a", none, none, none⟩).sessionId := by
  refine ⟨by decide, by decide, by decide⟩

/-- C7 as amended: for every Connection instance and every sequence of inbound
frames, the tracked session identifier equals the session_id of the LAST frame
carrying a non-empty one (every such frame overwrites it), and it is the prior
value only when no delivered frame carried a non-empty session_id. -/
theorem sessionId_last_truthy_wins (s : WebSocketService)
    (frames : List WebSocketMessage) :
    (frames.foldl WebSocketService.deliver s).sessionId =
      match frames.reverse.find? (fun m => truthy m.session_id) with
      | some m => m.session_id
      | none => s.sessionId := by
  induction frames generalizing s with
  | nil => rfl
  | cons m ms ih =>
      rw [List.foldl_cons, ih (s.deliver m), List.reverse_cons,
        List.find?_append]
      cases hfind : ms.reverse.find? (fun m => truthy m.session_id) with
      | some x => rfl
      | none =>
          show _ = (match Option.none.or ([m].find? fun m => truthy m.session_id)
            with | some m => m.session_id | none => s.sessionId)
          rw [deliver_sessionId]
          by_cases h : truthy m.session_id = true
          · simp [List.find?, h]
          · simp [List.find?, eq_false_of_ne_true h]

/-- Counterexample for C8: while the current connection is already open but has
not yet received a session identifier, a second call of the coordinator's
connection initializer is not a no-op — it constructs and connects a second
underlying transport, without closing the first, which is still open. -/
theorem initWebSocket_open_null_session_new_transport :
    ((⟨some openNoSession⟩ : ChatAPI).initWebSocket "u1").2 = true ∧
    openNoSession.ws = some ReadyState.opened ∧
    ((⟨some openNoSession⟩ : ChatAPI).initWebSocket "u1").1.webSocketService
      ≠ some openNoSession := by
  refine ⟨by decide, by decide, by decide⟩

/-- C8 as amended: a repeated call of the coordinator's connection initializer
is a no-op (same coordinator state, no transport created) exactly when the
current service already carries a non-null session identifier; when the
current service's identifier is still null — even with the socket open — the
call creates a new underlying transport and replaces the service without
closing the old one. -/
theorem initWebSocket_noop_iff_session_known (c : ChatAPI) (uid : String)
    (s : WebSocketService) (hs : c.webSocketService = some s) :
    (s.sessionId ≠ none → c.initWebSocket uid = (c, false)) ∧
    (s.sessionId = none → (c.initWebSocket uid).2 = true ∧
        (c.initWebSocket uid).1.webSocketService
          = some ((WebSocketService.new uid).connectStart).1) := by
  cases c with
  | mk osvc =>
      cases osvc with
      | none => simp at hs
      | some t =>
          have ht : t = s := by
            injection hs
          subst ht
          constructor
          · intro hne
            simp [ChatAPI.initWebSocket, WebSocketService.getSessionId, hne]
          · intro hnone
            refine ⟨?_, ?_⟩ <;>
              simp [ChatAPI.initWebSocket, WebSocketService.getSessionId,
                hnone, WebSocketService.connectStart, WebSocketService.new]

/-- Witness for the amended C8: a coordinator holding an open service with a
known session identifier ignores a repeated initializer call. -/
theorem initWebSocket_noop_iff_session_known_witness :
    (⟨some openService⟩ : ChatAPI).initWebSocket "u1"
      = ((⟨some openService⟩ : ChatAPI), false) :=
  (initWebSocket_noop_iff_session_known ⟨some openService⟩ "u1" openService
    rfl).1 (by decide)

/-- C9 is violated by the code: sendMessage performs no in-flight check, so at
the concrete failing input — an open service with one request already pending —
a second send is transmitted (not rejected), its handler is appended behind the
first, and a single subsequent response frame settles both pending promises
with the same text, since every registered handler receives every frame. -/
theorem sendMessage_overlap_transmitted :
    (openWithPending.sendMessageStart 1).2 = SendStart.transmitted ∧
    (openWithPending.sendMessageStart 1).1.handlers = [0, 1] ∧
    messageHandler ⟨none, none, some "hi", none⟩
      = HandlerOutcome.resolve "hi" ∧
    ((openWithPending.sendMessageStart 1).1.deliver
        ⟨none, none, some "hi", none⟩).handlers = [] := by
  refine ⟨by decide, by decide, by decide, by decide⟩

/-- C10: an inbound frame whose response and error fields are both falsy
(absent or the empty string) makes the reply closure do nothing — the pending
promise is neither resolved nor rejected — and frame delivery leaves every
registered handler in place; in particular an empty-string response can never
complete a send. -/
theorem silent_frame_keeps_pending (m : WebSocketMessage)
    (hr : truthy m.response = false) (he : truthy m.error = false) :
    messageHandler m = HandlerOutcome.keep ∧
    (∀ s : WebSocketService, (s.deliver m).handlers = s.handlers) := by
  have hk : messageHandler m = HandlerOutcome.keep := by
    simp [messageHandler, hr, he]
  refine ⟨hk, fun s => ?_⟩
  unfold WebSocketService.deliver
  rw [hk]
  by_cases h : truthy m.session_id = true
  · simp [h]
  · simp [eq_false_of_ne_true h]

/-- Witness for C10: a frame carrying only a session identifier together with
an empty-string response settles nothing and leaves the one registered handler
in place. -/
theorem silent_frame_keeps_pending_witness :
    messageHandler ⟨some "s2", none, some "", none⟩ = HandlerOutcome.keep ∧
    (openWithPending.deliver ⟨some "s2", none, some "", none⟩).handlers
      = openWithPending.handlers :=
  ⟨(silent_frame_keeps_pending ⟨some "s2", none, some "", none⟩ rfl rfl).1,
   (silent_frame_keeps_pending ⟨some "s2", none, some "", none⟩ rfl rfl).2
      openWithPending⟩
